import Mathlib

/-!
Shallow embedding of the pydmart client core (`src/pydmart/dmart_service.py`):
the request dispatcher (`DmartService.__api`), auth-state lifecycle
(`connect` / `disconnect`), session-pool acquisition
(`DmartService.create_session_pool`), record subpath normalization
(`Record.__init__`) and the error model (`Error`, `DmartException`,
`DmartResponse`).

Python object state is passed explicitly: the per-instance `auth_token`
slot is an `Option Json` — `none` models the attribute never having been
assigned (reading it raises `AttributeError`; the source assigns it only in
`connect`/`disconnect`), and `some v` an assigned Python value, with
`some Json.null` for an assigned `None`.  The class-level `session` slot is
modelled likewise (`PoolSlot.missing`).  The transport layer is a
parameter (`HttpResponse`) standing for the
response produced by `aiohttp` for the single request a method issues.
Exceptions become explicit outcome constructors.
-/

namespace Pydmart

/-- JSON-like values: the decoded bodies (`await response.json()`) and the
Python values stored in dynamic slots such as `self.auth_token`. -/
inductive Json where
  | null
  | bool (b : Bool)
  | num (n : Int)
  | str (s : String)
  | arr (elems : List Json)
  | obj (fields : List (String × Json))

/-- Models `dict.get(k)`-style key lookup on a JSON object: first binding wins. -/
def Json.lookup : Json → String → Option Json
  | .obj fields, k => go fields k
  | _, _ => none
where go : List (String × Json) → String → Option Json
  | [], _ => none
  | (k', v) :: rest, k => if k' = k then some v else go rest k

/-- Python `d.get(k, default)`. -/
def Json.getD (j : Json) (k : String) (default : Json) : Json :=
  (j.lookup k).getD default

/-- Python truthiness (`if not x:`): `None`, `False`, `0`, `""`, `[]`, `{}`
are falsy, everything else truthy. -/
def pyFalsy : Json → Bool
  | .null => true
  | .bool b => !b
  | .num n => n == 0
  | .str s => s.isEmpty
  | .arr elems => elems.isEmpty
  | .obj fields => fields.isEmpty

/-- Python truthiness of an optional value, as in `if json:` on a
`dict[str, Any] | None` argument: `None` is falsy, and a dict is truthy
exactly when it is non-empty. -/
def pyTruthyOpt : Option Json → Bool
  | none => false
  | some j => !(pyFalsy j)

/-- Python `str(x)` for the values that can end up in the auth-token slot,
as used by the f-string `f"Bearer {self.auth_token}"`. -/
def pyStr : Json → String
  | .null => "None"
  | .bool b => if b then "True" else "False"
  | .num n => toString n
  | .str s => s
  | .arr _ => "[...]"
  | .obj _ => "\x7b...\x7d"

/-- Python runtime errors: subscription errors raised by
`resp_json["records"][0][...]`, and the `AttributeError` raised by reading
an attribute that was never assigned (such as `self.auth_token` before any
successful `connect`, or the undeclared class attribute `cls.session`). -/
inductive PyErr where
  | keyError (k : String)
  | indexError
  | typeError
  | attributeError (attr : String)
  deriving DecidableEq, Repr

/-- Python `j[k]` for a string key: objects look the key up (`KeyError` when
missing), every other value raises `TypeError`. -/
def pyGetItem (j : Json) (k : String) : Except PyErr Json :=
  match j with
  | .obj _ => match j.lookup k with
    | some v => .ok v
    | none => .error (.keyError k)
  | _ => .error .typeError

/-- Python `j[0]`: arrays index (`IndexError` when empty), strings yield
their first character as a one-character string, objects raise `KeyError`
(our keys are strings, never the integer 0), the rest raise `TypeError`. -/
def pyItemZero (j : Json) : Except PyErr Json :=
  match j with
  | .arr (x :: _) => .ok x
  | .arr [] => .error .indexError
  | .str s => match s.data with
    | c :: _ => .ok (.str (String.mk [c]))
    | [] => .error .indexError
  | .obj _ => .error (.keyError "0")
  | _ => .error .typeError

/-- Models `class Status(StrEnum)` from the source. -/
inductive Status where
  | success
  | failed
  deriving DecidableEq, Repr

/-- Models `class Error(BaseModel)`: `type: str`, `code: int`, `message: str`,
`info: list[dict] | None = None`. -/
structure Error where
  type : String
  code : Int
  message : String
  info : Option (List Json) := none

/-- Models `Error.model_validate(v)`: pydantic accepts a mapping with a string
`type`, an integer `code`, a string `message` and an optional `info` that is
`None` or a list of mappings; anything else fails validation (`none`). -/
def Error.model_validate (v : Json) : Option Error :=
  match v with
  | .obj _ =>
    match v.lookup "type", v.lookup "code", v.lookup "message" with
    | some (.str t), some (.num c), some (.str m) =>
      match v.lookup "info" with
      | none | some .null => some { type := t, code := c, message := m, info := none }
      | some (.arr elems) =>
        if elems.all (fun e => match e with | .obj _ => true | _ => false)
        then some { type := t, code := c, message := m, info := some elems }
        else none
      | some _ => none
    | _, _, _ => none
  | _ => none

/-- Models `class DmartResponse(BaseModel)`: `status: Status`,
`error: Error | None = None`, `records: list[Record] | Any | None = None`,
`attributes: dict[str, Any] | None = None`.  Because the `records` and
`attributes` annotations admit `Any`/`None`, we keep them as raw JSON values
with `Json.null` for the Python `None` default. -/
structure DmartResponse where
  status : Status
  error : Option Error := none
  records : Json := .null
  attributes : Json := .null

/-- The argument `pydantic.model_validate` receives in the dispatcher: either
a decoded JSON value or the raw `aiohttp.ClientResponse` transport object
(the source's 200-branch passes the latter). -/
inductive PyValue where
  | json (j : Json)
  | responseObject

/-- Models `DmartResponse.model_validate(v)`.  A mapping validates when its
`status` is `"success"`/`"failed"` and its `error` field (if present and
non-null) validates as an `Error`; `records` admits anything (`Any` in the
annotation).  A transport response object is neither a mapping nor a
`DmartResponse` instance, so pydantic rejects it (`none`). -/
def DmartResponse.model_validate (v : PyValue) : Option DmartResponse :=
  match v with
  | .responseObject => none
  | .json j =>
    match j with
    | .obj _ =>
      match j.lookup "status" with
      | some (.str "success") => finishWith j .success
      | some (.str "failed") => finishWith j .failed
      | _ => none
    | _ => none
where finishWith (j : Json) (st : Status) : Option DmartResponse :=
  match j.lookup "error" with
  | none | some .null =>
    some { status := st, error := none, records := j.getD "records" .null,
           attributes := j.getD "attributes" .null }
  | some ev =>
    match Error.model_validate ev with
    | some e =>
      some { status := st, error := some e, records := j.getD "records" .null,
             attributes := j.getD "attributes" .null }
    | none => none

/-- Models `class RequestMethod(StrEnum)`. -/
inductive RequestMethod where
  | get
  | post
  | delete
  | put
  | patch
  deriving DecidableEq, Repr

/-- Models `class RequestType(StrEnum)`. -/
inductive RequestType where
  | create
  | update
  | patch
  | update_acl
  | assign
  | r_replace
  | delete
  | move
  deriving DecidableEq, Repr

def RequestType.value : RequestType → String
  | .create => "create"
  | .update => "update"
  | .patch => "patch"
  | .update_acl => "update_acl"
  | .assign => "assign"
  | .r_replace => "replace"
  | .delete => "delete"
  | .move => "move"

/-- Models `class ResourceType(StrEnum)`. -/
inductive ResourceType where
  | user | group | folder | schema | content | acl | comment | media
  | data_asset | locator | relationship | alteration | history | space
  | branch | permission | role | ticket | json | lock | post | reaction
  | reply | share | plugin_wrapper | notification | csv | jsonl | sqlite
  | duckdb | parquet
  deriving DecidableEq, Repr

def ResourceType.value : ResourceType → String
  | .user => "user" | .group => "group" | .folder => "folder"
  | .schema => "schema" | .content => "content" | .acl => "acl"
  | .comment => "comment" | .media => "media" | .data_asset => "data_asset"
  | .locator => "locator" | .relationship => "relationship"
  | .alteration => "alteration" | .history => "history" | .space => "space"
  | .branch => "branch" | .permission => "permission" | .role => "role"
  | .ticket => "ticket" | .json => "json" | .lock => "lock"
  | .post => "post" | .reaction => "reaction" | .reply => "reply"
  | .share => "share" | .plugin_wrapper => "plugin_wrapper"
  | .notification => "notification" | .csv => "csv" | .jsonl => "jsonl"
  | .sqlite => "sqlite" | .duckdb => "duckdb" | .parquet => "parquet"

end Pydmart

namespace Pydmart

/-- One `aiohttp.FormData` field (`data.add_field(...)`). -/
structure FormField where
  name : String
  filename : Option String := none
  content_type : Option String := none
  value : Option String := none

/-- Models `aiohttp.FormData`: the ordered fields added to the multipart body. -/
structure FormData where
  fields : List FormField

/-- The arguments `DmartService.__api` passes to `session.request`. -/
structure ApiRequest where
  endpoint : String
  method : RequestMethod
  json : Option Json := none
  data : Option FormData := none

/-- The transport response for the single HTTP call a method issues:
the HTTP status code and the result of `await response.json()`
(`none` when the body is not parseable as JSON, in which case that call
raises a decode error). -/
structure HttpResponse where
  status : Nat
  body : Option Json

/-- How a dispatcher / operation call ends: a returned `DmartResponse`, a
raised `DmartException(status_code, error)`, a raised `ConnectionError`, a
raised JSON-decode error from `await response.json()`, a raised `KeyError` /
`IndexError` / `TypeError` from subscription, or a raised pydantic
validation error from `model_validate`; `retNone` is a method returning
Python's implicit `None` (as `connect` does on success). -/
inductive ApiOutcome where
  | ok (r : DmartResponse)
  | retNone
  | dmartErr (status_code : Nat) (error : Error)
  | connectionError (msg : String)
  | jsonDecodeErr
  | pyErr (e : PyErr)
  | validationErr

/-- What a dispatcher call did: its outcome, whether `session.request` was
invoked, and the headers passed to it (present exactly when a network call
was made). -/
structure ApiResult where
  outcome : ApiOutcome
  networkCalled : Bool
  sentHeaders : Option (List (String × String))

namespace DmartService

/-- The `json_headers` property. -/
def json_headers (auth_token : Json) : List (String × String) :=
  [("Content-Type", "application/json"),
   ("Authorization", "Bearer " ++ pyStr auth_token)]

/-- The `headers` property. -/
def headers (auth_token : Json) : List (String × String) :=
  [("Authorization", "Bearer " ++ pyStr auth_token)]

/-- Models `DmartService.__api`.  The guard `if not self.auth_token:`
first reads the attribute: when it was never assigned (the source
initializes it only in `connect`/`disconnect`), the read raises
`AttributeError` before any network activity; when the read value is
falsy, raise `DmartException(401, Error(code=10, type="login", ...))`,
still without a network call.  Otherwise issue the request with
`json_headers` when the `json` argument is truthy (a non-empty dict,
`self.json_headers if json else self.headers`) and `headers` otherwise,
decode the body (`await response.json()`), raise
`DmartException(response.status, Error.model_validate(resp_json["error"]))`
on a non-200 status, and on 200 return
`DmartResponse.model_validate(response)` — the source passes the transport
`response` object, not the decoded `resp_json`. -/
def api (auth_token : Option Json) (req : ApiRequest)
    (resp : HttpResponse) : ApiResult :=
  match auth_token with
  | none =>
    { outcome := .pyErr (.attributeError "auth_token"),
      networkCalled := false, sentHeaders := none }
  | some tok =>
    if pyFalsy tok then
      { outcome := .dmartErr 401
          { code := 10, type := "login", message := "Not authenticated Dmart user" },
        networkCalled := false, sentHeaders := none }
    else
      let hdrs := if pyTruthyOpt req.json then json_headers tok
                  else headers tok
      match resp.body with
      | none => { outcome := .jsonDecodeErr, networkCalled := true,
                  sentHeaders := some hdrs }
      | some resp_json =>
        if resp.status ≠ 200 then
          match pyGetItem resp_json "error" with
          | .error e => { outcome := .pyErr e, networkCalled := true,
                          sentHeaders := some hdrs }
          | .ok ev =>
            match Error.model_validate ev with
            | none => { outcome := .validationErr, networkCalled := true,
                        sentHeaders := some hdrs }
            | some e => { outcome := .dmartErr resp.status e,
                          networkCalled := true, sentHeaders := some hdrs }
        else
          match DmartResponse.model_validate .responseObject with
          | none => { outcome := .validationErr, networkCalled := true,
                      sentHeaders := some hdrs }
          | some r => { outcome := .ok r, networkCalled := true,
                        sentHeaders := some hdrs }

/-- Models `DmartService.connect`: POST the credentials to `/user/login`, decode
the body; when `resp_json.get("status", "failed") == "failed"` or
`resp_json.get("records")` is falsy, raise `ConnectionError` leaving the
token slot untouched; otherwise store
`resp_json["records"][0]["attributes"]["access_token"]` in `auth_token`.
Returns (outcome, auth_token slot after the call, whether the request was
issued) — `connect` posts unconditionally and never reads the token slot,
so it leaves the slot untouched on every failure path. -/
def connect (auth_token : Option Json) (resp : HttpResponse) :
    ApiOutcome × Option Json × Bool :=
  match resp.body with
  | none => (.jsonDecodeErr, auth_token, true)
  | some resp_json =>
    if (match resp_json.getD "status" (.str "failed") with
        | .str s => s = "failed"
        | _ => false)
       || pyFalsy (resp_json.getD "records" .null) then
      (.connectionError
        "Failed to connect to the Dmart instance, invalid url or credentials",
       auth_token, true)
    else
      match (do
        let records ← pyGetItem resp_json "records"
        let first ← pyItemZero records
        let attrs ← pyGetItem first "attributes"
        pyGetItem attrs "access_token" : Except PyErr Json) with
      | .error e => (.pyErr e, auth_token, true)
      | .ok tok => (.retNone, some tok, true)

/-- Models `DmartService.disconnect`: call `__api("/user/logout", post)`; the
assignment `self.auth_token = None` runs only if that call returned without
raising.  Returns (outcome, auth_token slot after the call, network call
issued); the assignment stores `None` in the slot (`some Json.null`). -/
def disconnect (auth_token : Option Json) (resp : HttpResponse) :
    ApiOutcome × Option Json × Bool :=
  let r := api auth_token { endpoint := "/user/logout", method := .post } resp
  match r.outcome with
  | .ok env => (.ok env, some .null, r.networkCalled)
  | o => (o, auth_token, r.networkCalled)

/-- Models `DmartService.get_profile`.  As for every method below, the pair is
(result of the `__api` call, auth_token slot after the call): the method body
contains no assignment to `self.auth_token`, so the slot comes back
unchanged. -/
def get_profile (auth_token : Option Json) (resp : HttpResponse) :
    ApiResult × Option Json :=
  (api auth_token { endpoint := "/user/profile", method := .get } resp,
   auth_token)

/-- Models `DmartService.__request`: the shared `/managed/request` POST body. -/
def request (auth_token : Option Json) (space_name subpath shortname : String)
    (request_type : RequestType) (attributes : Json)
    (resource_type : ResourceType) (resp : HttpResponse) :
    ApiResult × Option Json :=
  (api auth_token
    { endpoint := "/managed/request", method := .post,
      json := some (.obj
        [("space_name", .str space_name),
         ("request_type", .str request_type.value),
         ("records", .arr
           [.obj [("resource_type", .str resource_type.value),
                  ("subpath", .str subpath),
                  ("shortname", .str shortname),
                  ("attributes", attributes)]])]) } resp,
   auth_token)

/-- Models `DmartService.create`. -/
def create (auth_token : Option Json) (space_name subpath : String)
    (attributes : Json) (shortname : String) (resource_type : ResourceType)
    (resp : HttpResponse) : ApiResult × Option Json :=
  request auth_token space_name subpath shortname RequestType.create
    attributes resource_type resp

/-- Models `DmartService.update`. -/
def update (auth_token : Option Json) (space_name subpath shortname : String)
    (attributes : Json) (resource_type : ResourceType)
    (resp : HttpResponse) : ApiResult × Option Json :=
  request auth_token space_name subpath shortname RequestType.update
    attributes resource_type resp

/-- Models `DmartService.delete`: builds the `/managed/request` body inline. -/
def delete (auth_token : Option Json) (space_name subpath shortname : String)
    (resource_type : ResourceType) (resp : HttpResponse) :
    ApiResult × Option Json :=
  (api auth_token
    { endpoint := "/managed/request", method := .post,
      json := some (.obj
        [("space_name", .str space_name),
         ("request_type", .str RequestType.delete.value),
         ("records", .arr
           [.obj [("resource_type", .str resource_type.value),
                  ("subpath", .str subpath),
                  ("shortname", .str shortname),
                  ("attributes", .obj [])]])]) } resp,
   auth_token)

/-- Models `DmartService.query`: extra keyword arguments are merged into the body
dict after the fixed keys (later duplicates override, as in a Python dict
display with `**kwargs` last). -/
def query (auth_token : Option Json) (space_name subpath search : String)
    (filter_schema_names : List String) (kwargs : List (String × Json))
    (resp : HttpResponse) : ApiResult × Option Json :=
  (api auth_token
    { endpoint := "/managed/query", method := .post,
      json := some (.obj (dictMerge
        [("type", .str "search"),
         ("space_name", .str space_name),
         ("subpath", .str subpath),
         ("retrieve_json_payload", .bool true),
         ("filter_schema_names", .arr (filter_schema_names.map .str)),
         ("search", .str search)] kwargs)) } resp,
   auth_token)
where
  /-- Python dict construction: a later binding for a key overrides an
  earlier one. -/
  dictMerge (base extra : List (String × Json)) : List (String × Json) :=
    (base.filter (fun kv => extra.all (fun kv' => kv'.1 ≠ kv.1))) ++ extra

/-- Models `DmartService.query_data_asset`. -/
def query_data_asset (auth_token : Option Json)
    (space_name subpath shortname data_asset_type query_string : String)
    (schema_shortname : Option String) (resource_type : ResourceType)
    (resp : HttpResponse) : ApiResult × Option Json :=
  (api auth_token
    { endpoint := "/managed/data-asset", method := .post,
      json := some (.obj
        [("space_name", .str space_name),
         ("subpath", .str subpath),
         ("resource_type", .str resource_type.value),
         ("shortname", .str shortname),
         ("schema_shortname",
          match schema_shortname with | some s => .str s | none => .null),
         ("data_asset_type", .str data_asset_type),
         ("query_string", .str query_string)]) } resp,
   auth_token)

/-- Models `DmartService.read`. -/
def read (auth_token : Option Json) (space_name subpath shortname : String)
    (retrieve_attachments : Bool) (resource_type : ResourceType)
    (resp : HttpResponse) : ApiResult × Option Json :=
  (api auth_token
    { endpoint := "/managed/entry/" ++ resource_type.value ++ "/" ++
        space_name ++ "/" ++ subpath ++ "/" ++ shortname ++
        "?retrieve_json_payload=true&retrieve_attachments=" ++
        (if retrieve_attachments then "True" else "False"),
      method := .get } resp,
   auth_token)

/-- Models `DmartService.read_json_payload`. -/
def read_json_payload (auth_token : Option Json)
    (space_name subpath shortname : String) (resp : HttpResponse) :
    ApiResult × Option Json :=
  (api auth_token
    { endpoint := "/managed/payload/content/" ++ space_name ++ "/" ++
        subpath ++ "/" ++ shortname ++ ".json",
      method := .get } resp,
   auth_token)

/-- Models `DmartService.progress_ticket`: the body is `{"resolution": ...}` when
`cancellation_reasons` is truthy (a non-empty string), else `None`. -/
def progress_ticket (auth_token : Option Json)
    (space_name subpath shortname action : String)
    (cancellation_reasons : Option String) (resp : HttpResponse) :
    ApiResult × Option Json :=
  (api auth_token
    { endpoint := "/managed/progress-ticket/" ++ space_name ++ "/" ++
        subpath ++ "/" ++ shortname ++ "/" ++ action,
      method := .put,
      json := match cancellation_reasons with
        | some s => if s.isEmpty then none else some (.obj [("resolution", .str s)])
        | none => none } resp,
   auth_token)

/-- Models `DmartService.upload_resource_with_payload`: multipart-only call — the
three fields added to the `FormData`, no JSON body. -/
def upload_resource_with_payload (auth_token : Option Json) (space_name : String)
    (payload_file_name payload_mime_type : String) (resp : HttpResponse) :
    ApiResult × Option Json :=
  (api auth_token
    { endpoint := "/managed/resource_with_payload", method := .post,
      data := some ⟨[
        { name := "request_record", filename := some "record.json",
          content_type := some "application/json" },
        { name := "payload_file", filename := some payload_file_name,
          content_type := some payload_mime_type },
        { name := "space_name", value := some space_name }]⟩ } resp,
   auth_token)

end DmartService

end Pydmart

namespace Pydmart

/-- A character admitted by the `SHORTNAME` pattern
`^[a-zA-Zء-ي0-9٠-٩_]{1,64}$`: Latin letters, Arabic
letters U+0621–U+064A, ASCII digits, Arabic-Indic digits U+0660–U+0669,
and underscore. -/
def shortnameChar (c : Char) : Bool :=
  (('a' ≤ c && c ≤ 'z') || ('A' ≤ c && c ≤ 'Z') ||
   (0x621 ≤ c.toNat && c.toNat ≤ 0x64A) ||
   ('0' ≤ c && c ≤ '9') ||
   (0x660 ≤ c.toNat && c.toNat ≤ 0x669) ||
   c = '_')

/-- Models `SHORTNAME` acceptance: 1 to 64 shortname characters. -/
def shortnameMatches (s : String) : Bool :=
  1 ≤ s.data.length && s.data.length ≤ 64 && s.data.all shortnameChar

/-- Models `SUBPATH` acceptance
(`^[a-zA-Zء-ي0-9٠-٩_/]{1,128}$`): 1 to 128 characters
from the shortname class extended with `/`. -/
def subpathMatches (s : String) : Bool :=
  1 ≤ s.data.length && s.data.length ≤ 128 &&
    s.data.all (fun c => shortnameChar c || c = '/')

/-- Remove the leading run of `/` characters (one side of Python's
`str.strip("/")`). -/
def dropSlashes : List Char → List Char
  | [] => []
  | c :: cs => if c = '/' then dropSlashes cs else c :: cs

/-- Python `s.strip("/")`: remove every leading and trailing `/`. -/
def pyStripSlashes (s : String) : String :=
  String.mk ((dropSlashes (dropSlashes s.data).reverse).reverse)

/-- Models `class Record(BaseModel)` after construction: `__init__` first runs
pydantic validation (`shortname` against `SHORTNAME`, `subpath` against
`SUBPATH`), then rewrites `self.subpath = self.subpath.strip("/")` unless
the subpath is exactly `"/"`. -/
structure Record where
  resource_type : ResourceType
  uuid : Option String := none
  shortname : String
  subpath : String
  attributes : Json
  attachments : Json := .null
  retrieve_lock_status : Bool := false

/-- Models `Record(**data)`: pydantic field validation, then the one-time subpath
normalization from `Record.__init__`. -/
def Record.construct (resource_type : ResourceType)
    (shortname subpath : String) (attributes : Json) :
    Option Record :=
  if shortnameMatches shortname && subpathMatches subpath then
    some { resource_type := resource_type, shortname := shortname,
           subpath := if subpath ≠ "/" then pyStripSlashes subpath
                      else subpath,
           attributes := attributes }
  else
    none

/-- An `aiohttp.ClientSession` connection pool; distinct identifiers model
distinct pool instances. -/
structure Pool where
  id : Nat
  deriving DecidableEq, Repr

/-- The class-level `session` slot of `DmartService`.  The source never
declares the attribute, so before any assignment it is `missing` and
reading it raises `AttributeError`; `pyNone` is an attribute holding
`None` (falsy), and `held` an attribute holding a `ClientSession` pool —
always a truthy Python object. -/
inductive PoolSlot where
  | missing
  | pyNone
  | held (p : Pool)
  deriving DecidableEq, Repr

/-- The session slot plus a creation counter recording how many pools have
ever been constructed. -/
structure PoolState where
  session : PoolSlot
  created : Nat
  deriving DecidableEq, Repr

/-- The class state as written in the source: the `session` attribute is
never declared anywhere, so the slot is missing and nothing has been
created. -/
def PoolState.init : PoolState := { session := .missing, created := 0 }

namespace DmartService

/-- Models `DmartService.create_session_pool`: `if not cls.session:` first
reads the class attribute — raising `AttributeError` when it was never
assigned — then, on a falsy read value (`None`), constructs a
`ClientSession` (`fresh`, counting the construction) and stores it; a held
pool is truthy, so the slot is left untouched. -/
def create_session_pool (st : PoolState) (fresh : Pool) :
    Except PyErr PoolState :=
  match st.session with
  | .missing => .error (.attributeError "session")
  | .pyNone => .ok { session := .held fresh, created := st.created + 1 }
  | .held _ => .ok st

end DmartService

end Pydmart

namespace Pydmart

/-- Helper: a successful dictionary lookup means Python subscription
succeeds with the same value. -/
lemma pyGetItem_of_lookup {j : Json} {k : String} {v : Json}
    (h : Json.lookup j k = some v) : pyGetItem j k = .ok v := by
  cases j with
  | obj fields => simp [pyGetItem, h]
  | null => exact absurd h (by simp [Json.lookup])
  | bool b => exact absurd h (by simp [Json.lookup])
  | num n => exact absurd h (by simp [Json.lookup])
  | str s => exact absurd h (by simp [Json.lookup])
  | arr elems => exact absurd h (by simp [Json.lookup])

/-- The `Error(code=10, type="login", message="Not authenticated Dmart
user")` raised by `DmartService.__api` when no token is present. -/
def unauthenticatedError : Error :=
  { type := "login", code := 10, message := "Not authenticated Dmart user" }

/-- The `ApiResult` of a dispatcher call rejected before any network
activity: `DmartException(401, unauthenticatedError)` with no request
issued and no headers sent. -/
def unauthenticatedResult : ApiResult :=
  { outcome := .dmartErr 401 unauthenticatedError,
    networkCalled := false, sentHeaders := none }

/-- Result of a dispatcher call on an instance whose `auth_token`
attribute was never assigned: reading `self.auth_token` raises
`AttributeError` before any network activity. -/
def missingTokenResult : ApiResult :=
  { outcome := .pyErr (.attributeError "auth_token"),
    networkCalled := false, sentHeaders := none }

/-- C1 (code bug): on a client with no prior successful `connect` the
`auth_token` attribute does not exist — the source assigns it only in
`connect` and `disconnect` and never initializes it — so every operation
dispatched through `__api` (`get_profile`, `create`, `read`, `update`,
`delete`, `query`, `query_data_asset`, `read_json_payload`,
`upload_resource_with_payload`, `progress_ticket`, `disconnect`) raises
`AttributeError` at `if not self.auth_token:`, not the claimed
`DmartException(401, Error(type="login", code=10))`; no network call is
issued and the slot stays unassigned.  The final conjunct shows the typed
401 rejection the claim expects is produced only from a state the class
lifecycle cannot reach without a prior assignment: an existing token
attribute holding a falsy value such as `None`. -/
theorem C1_fresh_client_attribute_error
    (resp : HttpResponse)
    (space_name subpath shortname search action : String)
    (data_asset_type query_string payload_file_name payload_mime_type : String)
    (attributes : Json) (resource_type : ResourceType)
    (filter_schema_names : List String) (kwargs : List (String × Json))
    (schema_shortname : Option String) (retrieve_attachments : Bool)
    (cancellation_reasons : Option String) :
    DmartService.get_profile none resp = (missingTokenResult, none) ∧
    DmartService.create none space_name subpath attributes shortname
        resource_type resp = (missingTokenResult, none) ∧
    DmartService.read none space_name subpath shortname
        retrieve_attachments resource_type resp =
      (missingTokenResult, none) ∧
    DmartService.update none space_name subpath shortname attributes
        resource_type resp = (missingTokenResult, none) ∧
    DmartService.delete none space_name subpath shortname
        resource_type resp = (missingTokenResult, none) ∧
    DmartService.query none space_name subpath search
        filter_schema_names kwargs resp = (missingTokenResult, none) ∧
    DmartService.query_data_asset none space_name subpath shortname
        data_asset_type query_string schema_shortname resource_type resp =
      (missingTokenResult, none) ∧
    DmartService.read_json_payload none space_name subpath shortname
        resp = (missingTokenResult, none) ∧
    DmartService.upload_resource_with_payload none space_name
        payload_file_name payload_mime_type resp =
      (missingTokenResult, none) ∧
    DmartService.progress_ticket none space_name subpath shortname
        action cancellation_reasons resp = (missingTokenResult, none) ∧
    DmartService.disconnect none resp =
      (.pyErr (.attributeError "auth_token"), none, false) ∧
    DmartService.api (some .null)
        { endpoint := "/user/profile", method := .get } resp =
      unauthenticatedResult :=
  ⟨rfl, rfl, rfl, rfl, rfl, rfl, rfl, rfl, rfl, rfl, rfl, rfl⟩

/-- C2 (code bug): on an HTTP 200 response with body
`{"status":"success","records":[]}` the dispatcher does NOT return the
decoded envelope: the source passes the transport `response` object to
`DmartResponse.model_validate` instead of the decoded `resp_json`, so
pydantic validation fails and the call raises.  The second conjunct shows
the decoded body itself does validate to the envelope the claim expects,
with `records` the empty list rather than absent. -/
theorem C2_success_path_never_returns_envelope :
    (DmartService.api (some (.str "token"))
        { endpoint := "/managed/query", method := .post,
          json := some (.obj [("type", .str "search")]) }
        ⟨200, some (.obj [("status", .str "success"),
                          ("records", .arr [])])⟩).outcome
      = .validationErr ∧
    DmartResponse.model_validate
        (.json (.obj [("status", .str "success"), ("records", .arr [])]))
      = some { status := .success, error := none, records := .arr [],
               attributes := .null } :=
  ⟨rfl, rfl⟩

/-- C3 amended: for a dispatched request with a token present, when the
response body is parseable JSON whose `error` field validates as an
`Error`, a non-200 status raises `DmartException` carrying that HTTP
status code and that `Error`; when the body is not parseable as JSON, the
decode error from `await response.json()` propagates as-is (the decode
happens before the status check), and no generic transport `Error` is
constructed. -/
theorem C3_non_200_raises_typed_exception
    (auth_token : Json) (req : ApiRequest) (resp : HttpResponse)
    (h : pyFalsy auth_token = false) :
    (resp.body = none →
      (DmartService.api (some auth_token) req resp).outcome =
        .jsonDecodeErr) ∧
    (∀ rj ev e, resp.body = some rj → resp.status ≠ 200 →
      Json.lookup rj "error" = some ev → Error.model_validate ev = some e →
      (DmartService.api (some auth_token) req resp).outcome =
        .dmartErr resp.status e) := by
  constructor
  · intro hb
    simp [DmartService.api, h, hb]
  · intro rj ev e hb hs hl hv
    simp [DmartService.api, h, hb, hs, pyGetItem_of_lookup hl, hv]

/-- C3 witness: the 422 validation example from the spec. -/
theorem C3_witness :
    (DmartService.api (some (.str "token"))
        { endpoint := "/managed/query", method := .post }
        ⟨422, some (.obj [("status", .str "failed"),
          ("error", .obj [("type", .str "validation"), ("code", .num 12),
                          ("message", .str "bad shortname")])])⟩).outcome
      = .dmartErr 422 ⟨"validation", 12, "bad shortname", none⟩ :=
  (C3_non_200_raises_typed_exception (.str "token") _ _ rfl).2
    _ _ _ rfl (by decide) rfl rfl

/-- C3 counterexample to the claim as stated: a 422 response whose body is
not parseable as JSON makes the dispatcher surface the raw JSON-decode
error — not a typed exception carrying status 422 and a generic transport
`Error` (the outcome constructor `jsonDecodeErr` is distinct from
`dmartErr`). -/
theorem C3_counterexample_unparseable_body :
    (DmartService.api (some (.str "token"))
        { endpoint := "/managed/query", method := .post }
        ⟨422, none⟩).outcome = .jsonDecodeErr :=
  rfl

/-- C4 (code bug): a logout whose HTTP response is a successful 200
`{"status":"success","records":[]}` still raises (the dispatcher's 200
path validates the transport response object and fails), so
`self.auth_token = None` is never executed and the token stays in place —
`disconnect` can never complete without raising, and no subsequent
operation is forced into the unauthenticated state. -/
theorem C4_disconnect_never_clears_token :
    DmartService.disconnect (some (.str "token"))
        ⟨200, some (.obj [("status", .str "success"),
                          ("records", .arr [])])⟩
      = (.validationErr, some (.str "token"), true) :=
  rfl

end Pydmart

namespace Pydmart

/-- C5: `connect` on a login response with `status = "failed"` (the default
when the key is a non-match) or a falsy `records` value raises
`ConnectionError` and leaves the token slot exactly as it was before the
call; on a response whose first record carries an `access_token` under
`attributes` (and whose status is not the failure marker), it stores that
token. -/
theorem C5_connect_failure_keeps_state_success_stores_token
    (auth_token : Option Json) (rj : Json) (resp : HttpResponse)
    (hb : resp.body = some rj) :
    (rj.getD "status" (.str "failed") = .str "failed" ∨
       pyFalsy (rj.getD "records" .null) = true →
     DmartService.connect auth_token resp =
       (.connectionError
          "Failed to connect to the Dmart instance, invalid url or credentials",
        auth_token, true)) ∧
    (∀ first rest attrs tok,
       rj.getD "status" (.str "failed") ≠ .str "failed" →
       Json.lookup rj "records" = some (.arr (first :: rest)) →
       Json.lookup first "attributes" = some attrs →
       Json.lookup attrs "access_token" = some tok →
       DmartService.connect auth_token resp =
         (.retNone, some tok, true)) := by
  constructor
  · intro hfail
    rcases hfail with hst | hrec
    · simp [DmartService.connect, hb, hst]
    · simp only [DmartService.connect, hb]
      rw [if_pos]
      rw [hrec]
      cases hv : rj.getD "status" (.str "failed") <;> simp
  · intro first rest attrs tok hst hrec hattrs htok
    have hrecD : rj.getD "records" .null = .arr (first :: rest) := by
      simp [Json.getD, hrec]
    simp only [DmartService.connect, hb]
    rw [if_neg]
    · simp [bind, Except.bind, pyGetItem_of_lookup hrec,
        pyGetItem_of_lookup hattrs, pyGetItem_of_lookup htok, pyItemZero]
    · rw [hrecD]
      cases hv : rj.getD "status" (.str "failed") with
      | str s =>
        have : s ≠ "failed" := by
          intro hs; exact hst (by rw [hv, hs])
        simp [this, pyFalsy]
      | null => simp [pyFalsy] at hrecD ⊢
      | bool b => simp [pyFalsy]
      | num n => simp [pyFalsy]
      | arr elems => simp [pyFalsy]
      | obj fields => simp [pyFalsy]

end Pydmart

namespace Pydmart

/-- C5 witness: a failed login (`status = "failed"`) leaves the absent
token state untouched; a successful login stores the access token of the
first record. -/
theorem C5_witness :
    DmartService.connect none ⟨401, some (.obj [("status", .str "failed")])⟩ =
      (.connectionError
         "Failed to connect to the Dmart instance, invalid url or credentials",
       none, true) ∧
    DmartService.connect none
        ⟨200, some (.obj [("status", .str "success"),
          ("records", .arr [.obj [("attributes",
            .obj [("access_token", .str "secret")])]])])⟩ =
      (.retNone, some (.str "secret"), true) :=
  ⟨(C5_connect_failure_keeps_state_success_stores_token none
      (.obj [("status", .str "failed")])
      ⟨401, some (.obj [("status", .str "failed")])⟩ rfl).1 (Or.inl rfl),
   (C5_connect_failure_keeps_state_success_stores_token none
      (.obj [("status", .str "success"),
        ("records", .arr [.obj [("attributes",
          .obj [("access_token", .str "secret")])]])])
      ⟨200, some (.obj [("status", .str "success"),
        ("records", .arr [.obj [("attributes",
          .obj [("access_token", .str "secret")])]])])⟩ rfl).2
     (.obj [("attributes", .obj [("access_token", .str "secret")])]) []
     (.obj [("access_token", .str "secret")]) (.str "secret")
     (by intro h; injection h with h2; exact absurd h2 (by decide))
     rfl rfl rfl⟩

/-- C6 (code bug): the class never declares `session`, so the very first
`create_session_pool` call — the one the claim says creates the single
pool — raises `AttributeError` at `if not cls.session:` and creates
nothing, as does every later call from that unchanged state; zero pools
are ever created by the source.  The remaining conjuncts show the
idempotence the claim (and spec) intends is exactly what the guard would
provide had the slot been initialized: a `None`-initialized slot gets one
pool created on the first call, and a held pool is returned unchanged,
uncounting, by every further call. -/
theorem C6_first_acquire_attribute_error :
    (∀ p : Pool, DmartService.create_session_pool PoolState.init p =
       .error (.attributeError "session")) ∧
    (∀ (c : Nat) (p : Pool),
       DmartService.create_session_pool ⟨.pyNone, c⟩ p =
         .ok ⟨.held p, c + 1⟩) ∧
    (∀ (c : Nat) (q p : Pool),
       DmartService.create_session_pool ⟨.held q, c⟩ p = .ok ⟨.held q, c⟩) :=
  ⟨fun _ => rfl, fun _ _ => rfl, fun _ _ _ => rfl⟩

/-- C8 amended: header selection follows Python truthiness of the `json`
argument (`self.json_headers if json else self.headers`): a truthy —
non-empty — JSON body sends the JSON content-type header together with
the bearer authorization header, while an absent or empty (falsy) JSON
body sends only the bearer authorization header. -/
theorem C8_header_selection_by_truthiness
    (auth_token : Json) (req : ApiRequest) (resp : HttpResponse)
    (h : pyFalsy auth_token = false) :
    (DmartService.api (some auth_token) req resp).networkCalled = true ∧
    (∀ j, req.json = some j → pyFalsy j = false →
      (DmartService.api (some auth_token) req resp).sentHeaders =
        some [("Content-Type", "application/json"),
              ("Authorization", "Bearer " ++ pyStr auth_token)]) ∧
    (req.json = none →
      (DmartService.api (some auth_token) req resp).sentHeaders =
        some [("Authorization", "Bearer " ++ pyStr auth_token)]) ∧
    (∀ j, req.json = some j → pyFalsy j = true →
      (DmartService.api (some auth_token) req resp).sentHeaders =
        some [("Authorization", "Bearer " ++ pyStr auth_token)]) := by
  refine ⟨?_, ?_, ?_, ?_⟩
  · cases hbody : resp.body <;>
      simp [DmartService.api, h, hbody] <;> (repeat' split) <;> simp
  · intro j hj hfj
    cases hbody : resp.body <;>
      simp [DmartService.api, h, hj, hfj, hbody, pyTruthyOpt,
        DmartService.json_headers] <;> (repeat' split) <;> simp
  · intro hj
    cases hbody : resp.body <;>
      simp [DmartService.api, h, hj, hbody, pyTruthyOpt,
        DmartService.headers] <;> (repeat' split) <;> simp
  · intro j hj hfj
    cases hbody : resp.body <;>
      simp [DmartService.api, h, hj, hfj, hbody, pyTruthyOpt,
        DmartService.headers] <;> (repeat' split) <;> simp

/-- C8 counterexample to the claim as stated: a present-but-empty JSON
body (`json={}`) is falsy in Python, so the source attaches only the
bearer authorization header — not, as claimed for every present JSON
body, the JSON content-type header as well. -/
theorem C8_counterexample_empty_json_body :
    (DmartService.api (some (.str "token"))
        { endpoint := "/managed/request", method := .post,
          json := some (.obj []) } ⟨200, some .null⟩).sentHeaders =
      some [("Authorization", "Bearer token")] :=
  rfl

/-- C8 witness: a non-empty JSON body sends both headers; a multipart-only
request sends only the authorization header. -/
theorem C8_witness :
    (DmartService.api (some (.str "token"))
        { endpoint := "/managed/query", method := .post,
          json := some (.obj [("type", .str "search")]) }
        ⟨200, some .null⟩).sentHeaders =
      some [("Content-Type", "application/json"),
            ("Authorization", "Bearer token")] ∧
    (DmartService.api (some (.str "token"))
        { endpoint := "/managed/resource_with_payload", method := .post,
          data := some ⟨[]⟩ } ⟨200, some .null⟩).sentHeaders =
      some [("Authorization", "Bearer token")] :=
  ⟨(C8_header_selection_by_truthiness (.str "token")
      { endpoint := "/managed/query", method := .post,
        json := some (.obj [("type", .str "search")]) }
      ⟨200, some .null⟩ rfl).2.1 (.obj [("type", .str "search")]) rfl rfl,
   (C8_header_selection_by_truthiness (.str "token")
      { endpoint := "/managed/resource_with_payload", method := .post,
        data := some ⟨[]⟩ } ⟨200, some .null⟩ rfl).2.2.1 rfl⟩

/-- C9: every operation other than `connect` and `disconnect` returns the
auth-token slot unchanged, whatever the transport response (envelope,
typed error, or any other raised outcome): their method bodies contain no
assignment to `self.auth_token`. -/
theorem C9_operations_preserve_token
    (auth_token : Option Json) (resp : HttpResponse)
    (space_name subpath shortname search action : String)
    (data_asset_type query_string payload_file_name payload_mime_type : String)
    (attributes : Json) (resource_type : ResourceType)
    (filter_schema_names : List String) (kwargs : List (String × Json))
    (schema_shortname : Option String) (retrieve_attachments : Bool)
    (cancellation_reasons : Option String) :
    (DmartService.get_profile auth_token resp).2 = auth_token ∧
    (DmartService.create auth_token space_name subpath attributes shortname
       resource_type resp).2 = auth_token ∧
    (DmartService.read auth_token space_name subpath shortname
       retrieve_attachments resource_type resp).2 = auth_token ∧
    (DmartService.update auth_token space_name subpath shortname attributes
       resource_type resp).2 = auth_token ∧
    (DmartService.delete auth_token space_name subpath shortname
       resource_type resp).2 = auth_token ∧
    (DmartService.query auth_token space_name subpath search
       filter_schema_names kwargs resp).2 = auth_token ∧
    (DmartService.query_data_asset auth_token space_name subpath shortname
       data_asset_type query_string schema_shortname resource_type resp).2
      = auth_token ∧
    (DmartService.read_json_payload auth_token space_name subpath shortname
       resp).2 = auth_token ∧
    (DmartService.upload_resource_with_payload auth_token space_name
       payload_file_name payload_mime_type resp).2 = auth_token ∧
    (DmartService.progress_ticket auth_token space_name subpath shortname
       action cancellation_reasons resp).2 = auth_token :=
  ⟨rfl, rfl, rfl, rfl, rfl, rfl, rfl, rfl, rfl, rfl⟩

/-- C10: a login response body with no `"status"` key at all is treated as
failed — `resp_json.get("status", "failed")` yields the default — so
`connect` raises `ConnectionError` and stores no token, even when the
response carries a non-empty record list with an access token. -/
theorem C10_missing_status_treated_as_failed
    (auth_token : Option Json) (rj : Json) (resp : HttpResponse)
    (hb : resp.body = some rj) (h : Json.lookup rj "status" = none) :
    DmartService.connect auth_token resp =
      (.connectionError
         "Failed to connect to the Dmart instance, invalid url or credentials",
       auth_token, true) := by
  simp [DmartService.connect, hb, Json.getD, h]

/-- C10 witness: a body with a non-empty record list holding an access
token but no status key still fails with the connection error, leaving the
token slot absent. -/
theorem C10_witness :
    DmartService.connect none
        ⟨200, some (.obj [("records", .arr [.obj [("attributes",
          .obj [("access_token", .str "secret")])]])])⟩ =
      (.connectionError
         "Failed to connect to the Dmart instance, invalid url or credentials",
       none, true) :=
  C10_missing_status_treated_as_failed none _ _ rfl rfl

end Pydmart

namespace Pydmart

/-- Helper for C7: removing the leading slash run decomposes the list into
an all-slash lead followed by a remainder that does not start with `/`. -/
lemma dropSlashes_decomp (l : List Char) :
    ∃ lead, l = lead ++ dropSlashes l ∧
      lead.all (fun c => c = '/') = true ∧
      (dropSlashes l).head? ≠ some '/' := by
  induction l with
  | nil => exact ⟨[], rfl, rfl, by simp [dropSlashes]⟩
  | cons c cs ih =>
    by_cases hc : c = '/'
    · obtain ⟨lead, he, hall, hh⟩ := ih
      subst hc
      refine ⟨'/' :: lead, ?_, ?_, ?_⟩
      · simpa [dropSlashes] using he
      · simpa using hall
      · simpa [dropSlashes] using hh
    · refine ⟨[], by simp [dropSlashes, hc], rfl, ?_⟩
      simp [dropSlashes, hc]

/-- Helper for C7: removing a leading run preserves the last element (or
empties the list). -/
lemma dropSlashes_getLast? (l : List Char) :
    dropSlashes l = [] ∨ (dropSlashes l).getLast? = l.getLast? := by
  induction l with
  | nil => exact Or.inl rfl
  | cons c cs ih =>
    by_cases hc : c = '/'
    · subst hc
      rcases ih with h | h
      · exact Or.inl (by simpa [dropSlashes] using h)
      · cases cs with
        | nil => exact Or.inl (by simp [dropSlashes])
        | cons d ds =>
          right
          show (dropSlashes ('/' :: d :: ds)).getLast? = _
          rw [show dropSlashes ('/' :: d :: ds) = dropSlashes (d :: ds)
               from by simp [dropSlashes]]
          rw [h, List.getLast?_cons_cons]
    · exact Or.inr (by simp [dropSlashes, hc])

/-- C7: record construction normalizes the subpath exactly as the claim
states: for every subpath accepted by the `SUBPATH` pattern, the root
`"/"` is stored unchanged, and any other subpath is stored as itself minus
its leading and trailing run of `/` characters (so the stored value
neither starts nor ends with `/`). -/
theorem C7_subpath_normalized_at_construction
    (resource_type : ResourceType) (shortname : String) (attributes : Json)
    (s : String)
    (hsn : shortnameMatches shortname = true)
    (hs : subpathMatches s = true) :
    (s = "/" →
      ((Record.construct resource_type shortname s attributes).map
        fun r => r.subpath) = some "/") ∧
    (s ≠ "/" →
      ∃ lead trail stored,
        ((Record.construct resource_type shortname s attributes).map
          fun r => r.subpath) = some (String.mk stored) ∧
        s.data = lead ++ stored ++ trail ∧
        lead.all (fun c => c = '/') = true ∧
        trail.all (fun c => c = '/') = true ∧
        stored.head? ≠ some '/' ∧
        stored.getLast? ≠ some '/') := by
  constructor
  · intro h
    subst h
    simp [Record.construct, hsn, hs]
  · intro hne
    have hcon : Record.construct resource_type shortname s attributes =
        some { resource_type := resource_type, shortname := shortname,
               subpath := pyStripSlashes s, attributes := attributes } := by
      simp [Record.construct, hsn, hs, hne]
    obtain ⟨lead, he1, hall1, hh1⟩ := dropSlashes_decomp s.data
    obtain ⟨lead2, he2, hall2, hh2⟩ :=
      dropSlashes_decomp (dropSlashes s.data).reverse
    refine ⟨lead, lead2.reverse,
      (dropSlashes (dropSlashes s.data).reverse).reverse, ?_, ?_, hall1,
      ?_, ?_, ?_⟩
    · rw [hcon]
      rfl
    · have h1 : dropSlashes s.data =
          (dropSlashes (dropSlashes s.data).reverse).reverse ++
            lead2.reverse := by
        have := congrArg List.reverse he2
        simpa [List.reverse_append] using this
      conv_lhs => rw [he1, h1]
      exact (List.append_assoc lead _ _).symm
    · simp only [List.all_eq_true] at hall2 ⊢
      intro c hc
      exact hall2 c (List.mem_reverse.mp hc)
    · rw [List.head?_reverse]
      rcases dropSlashes_getLast? (dropSlashes s.data).reverse with h | h
      · simp [h]
      · rw [h, List.getLast?_reverse]
        exact hh1
    · rw [List.getLast?_reverse]
      exact hh2

/-- C7 witness: the root subpath is stored unchanged; `"/a/b/"` is stored
as `"a/b"`. -/
theorem C7_witness :
    ((Record.construct .content "x" "/" (.obj [])).map fun r => r.subpath)
      = some "/" ∧
    ((Record.construct .content "x" "/a/b/" (.obj [])).map
        fun r => r.subpath) = some "a/b" :=
  ⟨(C7_subpath_normalized_at_construction .content "x" (.obj []) "/"
      (by decide) (by decide)).1 rfl,
   by decide⟩

end Pydmart
